import Mathlib

/-!
Verification development for the grafana_live_image_panel benchmark scripts.

Timestamps and durations are modelled as exact rationals; Python floats in
the scripts carry exact small decimal values in every scenario considered
here.  A Python ZeroDivisionError is modelled by returning Except.error.
-/

namespace LiveImage

/-- State of the windowed rate counter that benchmark_ws_receiver.py
(lines 23-26) and benchmark_ws_sender.py (lines 55-58) keep inline:
last_report_time (the start of the current window), the per-window
message counter and the per-window byte counter. -/
structure RateState where
  windowStart : ℚ
  eventCount : ℕ
  byteCount : ℕ
deriving Repr, DecidableEq

/-- The numbers printed once per window by benchmark_ws_receiver.py line 43
and benchmark_ws_sender.py line 76: msg_rate (messages per second),
data_rate_mbps, and the byte counter at print time (the receiver shows it
as Total, line 43). -/
structure Snapshot where
  msgRate : ℚ
  dataRateMbps : ℚ
  windowBytes : ℕ
deriving Repr, DecidableEq

/-- benchmark_ws_receiver.py lines 31-32 (and sender lines 65-66): one
received or sent message bumps the window counters. -/
def record (s : RateState) (len : ℕ) : RateState :=
  { s with eventCount := s.eventCount + 1, byteCount := s.byteCount + len }

/-- benchmark_ws_receiver.py lines 36-46 (identically sender lines 71-80):
if at least 1.0 s elapsed since the window started, compute
msg_rate = messages / elapsed guarded by elapsed > 0 (line 39),
data_rate_mbps = bytes * 8 / (elapsed * 1000000) with no guard (line 40,
a zero divisor would raise ZeroDivisionError, modelled as Except.error),
print, zero both counters and restart the window at now; otherwise leave
the state untouched and print nothing. -/
def maybeSnapshot (s : RateState) (now : ℚ) : Except Unit (Option Snapshot × RateState) :=
  if now - s.windowStart ≥ 1 then
    if (now - s.windowStart) * 1000000 = 0 then Except.error ()
    else Except.ok
      (some ⟨(if now - s.windowStart > 0 then (s.eventCount : ℚ) / (now - s.windowStart) else 0),
        (s.byteCount * 8 : ℚ) / ((now - s.windowStart) * 1000000), s.byteCount⟩,
      ⟨now, 0, 0⟩)
  else Except.ok (none, s)

/-- One pass of the receiver loop body, benchmark_ws_receiver.py lines
29-46: receive a message of length len at time t, count it, then run the
once-per-second report. -/
def receiverStep (s : RateState) (t : ℚ) (len : ℕ) :
    Except Unit (RateState × Option Snapshot) :=
  match maybeSnapshot (record s len) t with
  | Except.error e => Except.error e
  | Except.ok (o, s1) => Except.ok (s1, o)

/-- The receiver loop run over a finite trace of (arrival time, length)
messages, collecting the emitted per-second reports in order. -/
def receiverRun (s : RateState) : List (ℚ × ℕ) → Except Unit (RateState × List Snapshot)
  | [] => Except.ok (s, [])
  | (t, len) :: rest =>
    match receiverStep s t len with
    | Except.error e => Except.error e
    | Except.ok (s1, o) =>
      match receiverRun s1 rest with
      | Except.error e => Except.error e
      | Except.ok (s2, snaps) => Except.ok (s2, o.toList ++ snaps)

/-- benchmark_ws_sender.py line 54: target_interval is 1.0 / fps when
fps > 0 and the sentinel 0 otherwise (no rejection of any fps value). -/
def senderTargetInterval (fps : ℚ) : ℚ :=
  if fps > 0 then 1 / fps else 0

/-- benchmark_ws_sender.py lines 82-90: when target_interval > 0 the loop
sleeps sleep_time = target_interval - elapsed_loop only if positive,
otherwise it does not sleep; when target_interval is the sentinel 0 the
loop awaits asyncio.sleep(0), a pure yield of duration 0.  The returned
value is the duration slept in this iteration. -/
def senderSleep (fps : ℚ) (elapsedLoop : ℚ) : ℚ :=
  if senderTargetInterval fps > 0 then
    if senderTargetInterval fps - elapsedLoop > 0 then senderTargetInterval fps - elapsedLoop
    else 0
  else 0

/-- The three time.time() samples taken in one iteration of
benchmark_ws_sender.py handle_client: loop_start (line 62), current_time
after the send (line 68), and the sample inside the pacing branch
(line 84). -/
structure SenderTimes where
  loopStart : ℚ
  afterSend : ℚ
  afterReport : ℚ
deriving Repr, DecidableEq

/-- One iteration of handle_client, benchmark_ws_sender.py lines 61-90:
send the payload, count it, run the once-per-second report at
current_time, then compute this iteration's sleep from
afterReport - loopStart. -/
def handleClientStep (payloadLen : ℕ) (fps : ℚ) (s : RateState) (tm : SenderTimes) :
    Except Unit (RateState × Option Snapshot × ℚ) :=
  match maybeSnapshot (record s payloadLen) tm.afterSend with
  | Except.error e => Except.error e
  | Except.ok (o, s1) => Except.ok (s1, o, senderSleep fps (tm.afterReport - tm.loopStart))

/-- handle_client's while-True loop run over a finite schedule of
iteration timestamps; returns the final counter state, the number of
loop-body executions (sends) performed, and the reports emitted. -/
def handleClientRun (payloadLen : ℕ) (fps : ℚ) (s : RateState) :
    List SenderTimes → Except Unit (RateState × ℕ × List Snapshot)
  | [] => Except.ok (s, 0, [])
  | tm :: rest =>
    match handleClientStep payloadLen fps s tm with
    | Except.error e => Except.error e
    | Except.ok (s1, o, _slept) =>
      match handleClientRun payloadLen fps s1 rest with
      | Except.error e => Except.error e
      | Except.ok (s2, n, snaps) => Except.ok (s2, n + 1, o.toList ++ snaps)

/-- test-server.py line 266: delay = 1.0 / fps, computed unconditionally
at the top of image_server; in Python 1.0 / 0.0 raises ZeroDivisionError,
modelled as Except.error. -/
def imageServerDelay (fps : ℚ) : Except Unit ℚ :=
  if fps = 0 then Except.error () else Except.ok (1 / fps)

/-- test-server.py line 300: every iteration of image_server ends with
await asyncio.sleep(delay); the sleep duration is the fixed delay and
does not depend on how long producing and sending the frame took
(elapsedWork records that duration only to state this independence). -/
def imageServerIterationSleep (fps : ℚ) (_elapsedWork : ℚ) : Except Unit ℚ :=
  imageServerDelay fps

end LiveImage

namespace TestClient

/-- State of test-client.py test_receive_rate, lines 25-28 and 42-43:
session start time, time of the last periodic report, and the cumulative
frame counter, byte total and list of frame sizes, none of which is ever
reset. -/
structure ClientState where
  startTime : ℚ
  lastReportTime : ℚ
  frameCount : ℕ
  totalBytes : ℕ
  frameSizes : List ℕ
deriving Repr, DecidableEq

/-- The figures printed by one periodic report, test-client.py lines
58-72: the cumulative frame count, fps and the cumulative byte total. -/
structure ClientReport where
  frames : ℕ
  fps : ℚ
  totalBytes : ℕ
deriving Repr, DecidableEq

/-- test-client.py lines 42-43: right after connecting, start_time and
last_report_time are both set to the current time and the counters are
zero. -/
def clientInit (t0 : ℚ) : ClientState :=
  ⟨t0, t0, 0, 0, []⟩

/-- One pass of the message loop, test-client.py lines 47-73: count the
frame, add its size to total_bytes, append it to frame_sizes; then, if at
least 1.0 s passed since the last report, report
fps = frame_count / (current_time - start_time) guarded by elapsed > 0
(line 58) and update last_report_time, without resetting any counter. -/
def clientStep (s : ClientState) (t : ℚ) (len : ℕ) : ClientState × Option ClientReport :=
  let s1 : ClientState :=
    { s with frameCount := s.frameCount + 1, totalBytes := s.totalBytes + len,
             frameSizes := s.frameSizes ++ [len] }
  if t - s1.lastReportTime ≥ 1 then
    let elapsed := t - s1.startTime
    let fps : ℚ := if elapsed > 0 then (s1.frameCount : ℚ) / elapsed else 0
    ({ s1 with lastReportTime := t }, some ⟨s1.frameCount, fps, s1.totalBytes⟩)
  else (s1, none)

/-- The client message loop run over a finite trace of (arrival time,
length) messages, collecting the periodic reports in order. -/
def clientRun (s : ClientState) : List (ℚ × ℕ) → ClientState × List ClientReport
  | [] => (s, [])
  | (t, len) :: rest =>
    let p := clientStep s t len
    let q := clientRun p.1 rest
    (q.1, p.2.toList ++ q.2)

/-- How the test-client session ended: the server closed the connection
(caught at line 83), the --duration limit was reached (break at line 76),
Ctrl+C (caught at line 79), or any other exception (caught at line 85,
whose handler returns at line 90 before the final statistics). -/
inductive ClientTermination
  | closed
  | durationReached
  | interrupted
  | genericError
deriving Repr, DecidableEq

/-- The final statistics block of test-client.py, lines 93-112. -/
structure ClientSummary where
  totalFrames : ℕ
  duration : ℚ
  avgFps : ℚ
  minSize : ℕ
  maxSize : ℕ
deriving Repr, DecidableEq

/-- test-client.py lines 85-112 for a session in which the connection was
established (start_time set): the generic except-branch returns before
the final-statistics block, so no summary is printed on that path; on
every other path the summary is printed iff frame_count > 0, with
duration measured from start_time, avg_fps = frame_count / elapsed, and
min/max taken over frame_sizes (0 when empty, lines 96-97).  The
avg_fps division at line 95 carries no elapsed > 0 guard (unlike the
periodic report at lines 58-60), so elapsed = 0 raises a
ZeroDivisionError before anything is printed, modelled as
Except.error. -/
def clientFinal (s : ClientState) (endTime : ℚ) (term : ClientTermination) :
    Except Unit (Option ClientSummary) :=
  if term = ClientTermination.genericError then Except.ok none
  else if 0 < s.frameCount then
    if endTime - s.startTime = 0 then Except.error ()
    else Except.ok (some ⟨s.frameCount, endTime - s.startTime,
      (s.frameCount : ℚ) / (endTime - s.startTime),
      (s.frameSizes.min?).getD 0, (s.frameSizes.max?).getD 0⟩)
  else Except.ok none

end TestClient

namespace TestServer

/-- Little-endian split of a natural number below 2 to the 32nd into four
bytes, as struct.pack of format less-than capital I lays them out. -/
def packLE4 (v : ℕ) : List ℕ :=
  [v % 256, v / 256 % 256, v / 65536 % 256, v / 16777216 % 256]

/-- struct.pack of an unsigned 32-bit little-endian value from a Python
int: raises struct.error unless 0 ≤ v < 2 to the 32nd. -/
def packU32 (v : ℤ) : Except Unit (List ℕ) :=
  if 0 ≤ v ∧ v < 4294967296 then Except.ok (packLE4 v.toNat) else Except.error ()

/-- struct.pack of a signed 32-bit little-endian value from a Python int:
raises struct.error unless -2^31 ≤ v < 2^31; the byte layout is the
two's-complement residue of v modulo 2 to the 32nd. -/
def packI32 (v : ℤ) : Except Unit (List ℕ) :=
  if -2147483648 ≤ v ∧ v < 2147483648 then Except.ok (packLE4 (v % 4294967296).toNat)
  else Except.error ()

/-- struct.pack of an unsigned 16-bit little-endian value (both uses in
the source pack the constants 1 and 24, always in range). -/
def packU16 (v : ℕ) : List ℕ :=
  [v % 256, v / 256 % 256]

/-- test-server.py line 56: BMP rows are padded to a multiple of 4 bytes. -/
def bmpRowPadding (width : ℤ) : ℤ :=
  (4 - (width * 3) % 4) % 4

/-- test-server.py line 57: declared file size of the generated BMP. -/
def bmpFileSize (width height : ℤ) : ℤ :=
  54 + (width * 3 + bmpRowPadding width) * height

/-- test-server.py lines 34-80, create_bmp_header: a zero-filled 54-byte
buffer whose populated slices are the BM signature at 0-1, the file size
at 2-5 (packed unsigned), the pixel-data offset 54 at 10-13, the info
header size 40 at 14-17, the width at 18-21 (packed signed), the negated
height at 22-25 (packed signed, top-down orientation), planes 1 at 26-27
and bits-per-pixel 24 at 28-29; bytes 6-9 and 30-53 stay zero.  Any
struct.pack range violation raises struct.error, modelled as
Except.error. -/
def create_bmp_header (width height : ℤ) : Except Unit (List ℕ) :=
  match packU32 (bmpFileSize width height) with
  | Except.error e => Except.error e
  | Except.ok fs =>
    match packI32 width with
    | Except.error e => Except.error e
    | Except.ok w =>
      match packI32 (-height) with
      | Except.error e => Except.error e
      | Except.ok hneg =>
        Except.ok ([66, 77] ++ fs ++ [0, 0, 0, 0] ++ packLE4 54 ++ packLE4 40 ++
          w ++ hneg ++ packU16 1 ++ packU16 24 ++ List.replicate 24 0)

end TestServer

namespace LiveImage

/-- Characterisation of a due report of the windowed counter: the emitted
figures are the window counters over the window length, and the counters
restart at zero from now. -/
theorem maybeSnapshot_some (s : RateState) (now : ℚ) (snap : Snapshot) (s' : RateState)
    (h : maybeSnapshot s now = Except.ok (some snap, s')) :
    1 ≤ now - s.windowStart ∧
    snap = ⟨(s.eventCount : ℚ) / (now - s.windowStart),
      (s.byteCount * 8 : ℚ) / ((now - s.windowStart) * 1000000), s.byteCount⟩ ∧
    s' = ⟨now, 0, 0⟩ := by
  have h1 : 1 ≤ now - s.windowStart := by
    by_contra hlt
    have hlt' : ¬ (now - s.windowStart ≥ 1) := by exact hlt
    unfold maybeSnapshot at h
    rw [if_neg hlt'] at h
    simp at h
  have hpos : (0:ℚ) < now - s.windowStart := by linarith
  have hz : ¬ ((now - s.windowStart) * 1000000 = 0) :=
    mul_ne_zero (ne_of_gt hpos) (by norm_num)
  have h1' : now - s.windowStart ≥ 1 := h1
  unfold maybeSnapshot at h
  rw [if_pos h1', if_neg hz, if_pos hpos] at h
  simp only [Except.ok.injEq, Prod.mk.injEq, Option.some.injEq] at h
  exact ⟨h1, h.1.symm, h.2.symm⟩

/-- The windowed counter never reaches the unguarded division with a zero
divisor: a report is only due once at least one second elapsed. -/
theorem maybeSnapshot_isOk (s : RateState) (now : ℚ) :
    ∃ r, maybeSnapshot s now = Except.ok r := by
  unfold maybeSnapshot
  split_ifs with h1 h2 h3
  · exfalso
    have hpos : (0:ℚ) < now - s.windowStart := by linarith
    exact (mul_ne_zero (ne_of_gt hpos) (by norm_num)) h2
  all_goals exact ⟨_, rfl⟩

/-- C3: immediately after maybeSnapshot returns a snapshot, the state has
eventCount = 0, byteCount = 0 and windowStart = now, and a second call at
the same now (with no intervening record) returns no snapshot and leaves
the state as it is. -/
theorem c3_reset_and_idempotent (s : RateState) (now : ℚ) (snap : Snapshot) (s' : RateState)
    (h : maybeSnapshot s now = Except.ok (some snap, s')) :
    s'.eventCount = 0 ∧ s'.byteCount = 0 ∧ s'.windowStart = now ∧
    maybeSnapshot s' now = Except.ok (none, s') := by
  obtain ⟨-, -, hs'⟩ := maybeSnapshot_some s now snap s' h
  subst hs'
  refine ⟨rfl, rfl, rfl, ?_⟩
  unfold maybeSnapshot
  rw [if_neg (by simp)]

/-- Witness for C3 at a concrete input: two events totalling 100 bytes in
a 1-second window. -/
theorem c3_reset_and_idempotent_witness :
    maybeSnapshot ⟨0, 2, 100⟩ 1 = Except.ok (some ⟨2, 1/1250, 100⟩, ⟨1, 0, 0⟩) ∧
    ((⟨1, 0, 0⟩ : RateState).eventCount = 0 ∧ (⟨1, 0, 0⟩ : RateState).byteCount = 0 ∧
      (⟨1, 0, 0⟩ : RateState).windowStart = 1 ∧
      maybeSnapshot ⟨1, 0, 0⟩ 1 = Except.ok (none, ⟨1, 0, 0⟩)) := by
  have h : maybeSnapshot ⟨0, 2, 100⟩ 1 = Except.ok (some ⟨2, 1/1250, 100⟩, ⟨1, 0, 0⟩) := by
    norm_num [maybeSnapshot]
  exact ⟨h, c3_reset_and_idempotent ⟨0, 2, 100⟩ 1 ⟨2, 1/1250, 100⟩ ⟨1, 0, 0⟩ h⟩

/-- C6: calling maybeSnapshot with now equal to windowStart never raises
a fault: it reports nothing and changes nothing, and more generally no
call to maybeSnapshot ever surfaces a division-by-zero error, because a
due report forces the elapsed divisor to be at least one second. -/
theorem c6_no_zero_division_fault (s : RateState) (now : ℚ) :
    maybeSnapshot s now ≠ Except.error () ∧
    maybeSnapshot s s.windowStart = Except.ok (none, s) := by
  constructor
  · unfold maybeSnapshot
    split_ifs with h1 h2 h3
    · exfalso
      have hpos : (0:ℚ) < now - s.windowStart := by linarith
      exact (mul_ne_zero (ne_of_gt hpos) (by norm_num)) h2
    all_goals simp
  · unfold maybeSnapshot
    rw [if_neg (by simp)]

/-- C7: a call before the reporting interval has elapsed returns no
snapshot and leaves every field of the state unchanged. -/
theorem c7_not_due_frame (s : RateState) (now : ℚ) (h : now - s.windowStart < 1) :
    maybeSnapshot s now = Except.ok (none, s) := by
  have h' : ¬ (now - s.windowStart ≥ 1) := by exact not_le.mpr h
  unfold maybeSnapshot
  rw [if_neg h']

/-- Witness for C7 at a concrete input: three events, 300 bytes, only
half a second into the window. -/
theorem c7_not_due_frame_witness :
    ((1 : ℚ)/2 - 0 < 1) ∧
    maybeSnapshot ⟨0, 3, 300⟩ (1/2) = Except.ok (none, ⟨0, 3, 300⟩) := by
  refine ⟨by norm_num, c7_not_due_frame ⟨0, 3, 300⟩ (1/2) (by norm_num)⟩

end LiveImage

section ClaimTheorems

open LiveImage TestClient TestServer

/-- Every periodic report of test-client carries the cumulative counters:
the frame count and byte total since the session started, and an fps
computed against the time since session start (not since the previous
report). -/
theorem clientStep_report (s : ClientState) (t : ℚ) (len : ℕ) (r : ClientReport)
    (h : (clientStep s t len).2 = some r) :
    r = ⟨s.frameCount + 1,
      (if t - s.startTime > 0 then ((s.frameCount + 1 : ℕ) : ℚ) / (t - s.startTime) else 0),
      s.totalBytes + len⟩ := by
  simp only [clientStep] at h
  split at h
  · simp only [Option.some.injEq] at h
    exact h.symm
  · simp at h

/-- handle_client's loop never faults and executes its body once per
scheduled iteration, for every fps value whatsoever. -/
theorem handleClientRun_ok (payloadLen : ℕ) (fps : ℚ) :
    ∀ (tms : List SenderTimes) (s : RateState),
      ∃ st snaps, handleClientRun payloadLen fps s tms = Except.ok (st, tms.length, snaps) := by
  intro tms
  induction tms with
  | nil => exact fun s => ⟨s, [], rfl⟩
  | cons tm rest ih =>
    intro s
    obtain ⟨⟨o, s1⟩, hr⟩ := maybeSnapshot_isOk (record s payloadLen) tm.afterSend
    obtain ⟨st, snaps, hrun⟩ := ih s1
    refine ⟨st, o.toList ++ snaps, ?_⟩
    simp only [handleClientRun, handleClientStep, hr, hrun, List.length_cons]

/-- C1 (amended): in the benchmark receiver/sender rate counter every
emitted snapshot reports exact current-window averages, eventsPerSecond
being eventCount over elapsed and bitsPerSecond (dataRateMbps scaled by
one million) being byteCount times 8 over elapsed, with elapsed measured
from windowStart; in test-client, by contrast, a periodic report divides
the cumulative session counters by the time since session start. -/
theorem c1_window_vs_cumulative_rates (s : RateState) (now : ℚ) (snap : Snapshot)
    (s' : RateState) (sc : ClientState) (t : ℚ) (len : ℕ) (r : ClientReport)
    (h : maybeSnapshot s now = Except.ok (some snap, s'))
    (hc : (clientStep sc t len).2 = some r) (ht : 0 < t - sc.startTime) :
    snap.msgRate = (s.eventCount : ℚ) / (now - s.windowStart) ∧
    snap.dataRateMbps * 1000000 = (s.byteCount : ℚ) * 8 / (now - s.windowStart) ∧
    r.fps = ((sc.frameCount : ℚ) + 1) / (t - sc.startTime) := by
  obtain ⟨h1, hsnap, -⟩ := maybeSnapshot_some s now snap s' h
  subst hsnap
  have hpos : (0:ℚ) < now - s.windowStart := by linarith
  have hne : (now - s.windowStart) ≠ 0 := ne_of_gt hpos
  refine ⟨rfl, ?_, ?_⟩
  · show (s.byteCount * 8 : ℚ) / ((now - s.windowStart) * 1000000) * 1000000 =
      (s.byteCount : ℚ) * 8 / (now - s.windowStart)
    field_simp
    ring
  · have hr := clientStep_report sc t len r hc
    subst hr
    show (if t - sc.startTime > 0 then ((sc.frameCount + 1 : ℕ) : ℚ) / (t - sc.startTime)
      else 0) = ((sc.frameCount : ℚ) + 1) / (t - sc.startTime)
    rw [if_pos ht]
    push_cast
    rfl

/-- Witness for C1 (amended) at concrete inputs: a 1-second window with
2 events and 100 bytes, and a client report 1 second into a session with
one frame. -/
theorem c1_window_vs_cumulative_rates_witness :
    maybeSnapshot ⟨0, 2, 100⟩ 1 = Except.ok (some ⟨2, 1/1250, 100⟩, ⟨1, 0, 0⟩) ∧
    (clientStep ⟨0, 0, 0, 0, []⟩ 1 7).2 = some ⟨1, 1, 7⟩ ∧
    ((2 : ℚ) = ((2:ℕ) : ℚ) / (1 - 0) ∧ (1:ℚ)/1250 * 1000000 = ((100:ℕ) : ℚ) * 8 / (1 - 0) ∧
      (1 : ℚ) = (((0:ℕ) : ℚ) + 1) / (1 - 0)) := by
  have h : maybeSnapshot ⟨0, 2, 100⟩ 1 = Except.ok (some ⟨2, 1/1250, 100⟩, ⟨1, 0, 0⟩) := by
    norm_num [maybeSnapshot]
  have hc : (clientStep ⟨0, 0, 0, 0, []⟩ 1 7).2 = some ⟨1, 1, 7⟩ := by
    norm_num [clientStep]
  exact ⟨h, hc, c1_window_vs_cumulative_rates ⟨0, 2, 100⟩ 1 ⟨2, 1/1250, 100⟩ ⟨1, 0, 0⟩
    ⟨0, 0, 0, 0, []⟩ 1 7 ⟨1, 1, 7⟩ h hc (by norm_num)⟩

/-- C1 counterexample: on the trace with three frames at t = 0.5, one at
t = 1 and one at t = 2 (100 bytes each, session start 0), test-client's
second periodic report shows fps 5/2, the cumulative session average,
while the exact average over the immediately preceding window - computed
by the benchmark receiver's windowed counter on the identical trace - is
1 frame per second. -/
theorem c1_counterexample :
    (clientRun (clientInit 0) [(1/2, 100), (1/2, 100), (1/2, 100), (1, 100), (2, 100)]).2 =
      [⟨4, 4, 400⟩, ⟨5, 5/2, 500⟩] ∧
    receiverRun ⟨0, 0, 0⟩ [(1/2, 100), (1/2, 100), (1/2, 100), (1, 100), (2, 100)] =
      Except.ok (⟨2, 0, 0⟩, [⟨4, 2/625, 400⟩, ⟨1, 1/1250, 100⟩]) ∧
    (5 : ℚ)/2 ≠ 1 := by
  refine ⟨?_, ?_, by norm_num⟩
  · norm_num [clientRun, clientStep, clientInit]
  · norm_num [receiverRun, receiverStep, maybeSnapshot, record]

/-- C2 (amended): in benchmark_ws_sender the iteration sleep is the
residual target interval, 1/fps minus the iteration's elapsed time when
that is positive and zero otherwise; in test-server's image_server the
iteration sleep is the full fixed delay of 1/fps, independent of how
long the iteration's work took. -/
theorem c2_sleep_residual_vs_fixed (f e e1 e2 : ℚ) (hf : 0 < f) :
    senderSleep f e = (if 1/f - e > 0 then 1/f - e else 0) ∧
    imageServerIterationSleep f e1 = imageServerIterationSleep f e2 ∧
    imageServerIterationSleep f e1 = Except.ok (1/f) := by
  have hf' : f > 0 := hf
  have hfi : senderTargetInterval f = 1/f := by
    unfold senderTargetInterval
    rw [if_pos hf']
  have hpos : (0:ℚ) < 1/f := by positivity
  refine ⟨?_, rfl, ?_⟩
  · unfold senderSleep
    rw [hfi, if_pos hpos]
  · unfold imageServerIterationSleep imageServerDelay
    rw [if_neg (ne_of_gt hf)]

/-- Witness for C2 (amended) at concrete inputs: fps 10 and fast work of
0.03 s leaves a 0.07 s residual sleep in the sender, while image_server
sleeps the full 0.1 s. -/
theorem c2_sleep_residual_vs_fixed_witness :
    (0:ℚ) < 10 ∧ senderSleep 10 (3/100) = 7/100 ∧
    imageServerIterationSleep 10 (3/20) = Except.ok (1/10) := by
  have h := c2_sleep_residual_vs_fixed 10 (3/100) (3/20) (3/20) (by norm_num)
  refine ⟨by norm_num, ?_, h.2.2⟩
  rw [h.1]
  norm_num

/-- C2 counterexample: with targetFrequency 10 (interval 0.1 s) and a
unit of work taking 0.15 s, the claim requires a sleep of zero, but
test-server's image_server (one of the cited paced loops) still sleeps
the full 0.1 s. -/
theorem c2_counterexample :
    imageServerIterationSleep 10 (3/20) = Except.ok (1/10) ∧
    (1:ℚ)/10 - 3/20 < 0 ∧ (1:ℚ)/10 ≠ 0 := by
  refine ⟨?_, by norm_num, by norm_num⟩
  norm_num [imageServerIterationSleep, imageServerDelay]

/-- C4 (amended): a negative target frequency is not rejected anywhere;
handle_client maps every non-positive fps to the sentinel
target_interval 0 (the unlimited mode) and its loop body executes once
per iteration exactly as for any other frequency. -/
theorem c4_negative_fps_not_rejected (f : ℚ) (payloadLen : ℕ) (s : RateState)
    (tms : List SenderTimes) (hf : f < 0) :
    senderTargetInterval f = 0 ∧
    ∃ st snaps, handleClientRun payloadLen f s tms = Except.ok (st, tms.length, snaps) := by
  refine ⟨?_, handleClientRun_ok payloadLen f tms s⟩
  unfold senderTargetInterval
  rw [if_neg (by exact not_lt.mpr hf.le)]

/-- Witness for C4 (amended) at a concrete input: fps -1 with a single
scheduled iteration. -/
theorem c4_negative_fps_not_rejected_witness :
    ((-1 : ℚ) < 0) ∧ senderTargetInterval (-1) = 0 ∧
    ∃ st snaps, handleClientRun 1024 (-1) ⟨0, 0, 0⟩ [⟨0, 1/100, 1/100⟩] =
      Except.ok (st, 1, snaps) := by
  have h := c4_negative_fps_not_rejected (-1) 1024 ⟨0, 0, 0⟩ [⟨0, 1/100, 1/100⟩]
    (by norm_num)
  exact ⟨by norm_num, h.1, h.2⟩

/-- C4 counterexample: with targetFrequency -1 the loop body of
handle_client is entered and completes an iteration (one send, no
report, no error), so a negative frequency is not rejected at
construction and does reach the loop. -/
theorem c4_counterexample :
    handleClientRun 1024 (-1) ⟨0, 0, 0⟩ [⟨0, 1/100, 1/100⟩] =
      Except.ok (⟨0, 1, 1024⟩, 1, []) ∧ (-1 : ℚ) < 0 := by
  refine ⟨?_, by norm_num⟩
  norm_num [handleClientRun, handleClientStep, maybeSnapshot, record, senderSleep,
    senderTargetInterval]

/-- C5 (amended): in benchmark_ws_sender unlimited mode (fps 0) each
iteration sleeps 0 (a bare yield), the division 1/fps is performed only
when fps > 0 and every other fps receives the sentinel 0; test-server's
image_server instead computes delay = 1/fps unconditionally, which is
well-defined only for fps different from 0. -/
theorem c5_unlimited_mode (f e : ℚ) :
    senderSleep 0 e = 0 ∧
    (0 < f → senderTargetInterval f = 1 / f) ∧
    (f ≤ 0 → senderTargetInterval f = 0) ∧
    (f ≠ 0 → imageServerDelay f = Except.ok (1 / f)) := by
  have h0 : senderTargetInterval 0 = 0 := by
    unfold senderTargetInterval
    rw [if_neg (by norm_num)]
  refine ⟨?_, fun hf => ?_, fun hf => ?_, fun hf => ?_⟩
  · unfold senderSleep
    rw [h0, if_neg (by norm_num)]
  · have hf' : f > 0 := hf
    unfold senderTargetInterval
    rw [if_pos hf']
  · unfold senderTargetInterval
    rw [if_neg (by exact not_lt.mpr hf)]
  · unfold imageServerDelay
    rw [if_neg hf]

/-- Witness for C5 (amended) at concrete inputs: fps 0 yields without
sleeping, fps 5 gets interval 1/5, and image_server's delay at fps 5 is
1/5. -/
theorem c5_unlimited_mode_witness :
    senderSleep 0 9 = 0 ∧ (0:ℚ) < 5 ∧ senderTargetInterval 5 = 1/5 ∧
    imageServerDelay 5 = Except.ok (1/5) := by
  have h := c5_unlimited_mode 5 9
  exact ⟨h.1, by norm_num, h.2.1 (by norm_num), h.2.2.2 (by norm_num)⟩

/-- C5 counterexample: image_server (one of the cited sources of the
pacing setup) divides by fps unconditionally, so fps 0 raises a
ZeroDivisionError in the pacing setup rather than entering an unlimited
mode. -/
theorem c5_counterexample : imageServerDelay 0 = Except.error () := by
  simp [imageServerDelay]

end ClaimTheorems

section ClaimTheorems2

open LiveImage TestClient TestServer

/-- Ingesting one frame always adds its size to test-client's cumulative
total_bytes, whether or not a periodic report fires. -/
theorem clientStep_totalBytes (s : ClientState) (t : ℚ) (len : ℕ) :
    ((clientStep s t len).1).totalBytes = s.totalBytes + len := by
  simp only [clientStep]
  split <;> rfl

/-- C8 (amended): test-client's total_bytes is a session-lifetime running
total, growing by exactly the size of each frame and never reset; the
benchmark receiver's displayed Total, by contrast, is the per-window
byte counter at snapshot time, which is reset to zero by the snapshot
(and can therefore decrease from one printed Total to the next). -/
theorem c8_cumulative_vs_window_total (sc : ClientState) (t : ℚ) (len : ℕ)
    (s : RateState) (now : ℚ) (snap : Snapshot) (s' : RateState)
    (h : maybeSnapshot s now = Except.ok (some snap, s')) :
    ((clientStep sc t len).1).totalBytes = sc.totalBytes + len ∧
    snap.windowBytes = s.byteCount ∧ s'.byteCount = 0 := by
  obtain ⟨-, hsnap, hs'⟩ := maybeSnapshot_some s now snap s' h
  subst hsnap
  subst hs'
  exact ⟨clientStep_totalBytes sc t len, rfl, rfl⟩

/-- Witness for C8 (amended) at concrete inputs. -/
theorem c8_cumulative_vs_window_total_witness :
    maybeSnapshot ⟨0, 2, 100⟩ 1 = Except.ok (some ⟨2, 1/1250, 100⟩, ⟨1, 0, 0⟩) ∧
    (((clientStep ⟨0, 0, 3, 40, [10, 30]⟩ (1/4) 60).1).totalBytes = 40 + 60 ∧
      (Snapshot.mk 2 (1/1250) 100).windowBytes = 100 ∧ (RateState.mk 1 0 0).byteCount = 0) := by
  have h : maybeSnapshot ⟨0, 2, 100⟩ 1 = Except.ok (some ⟨2, 1/1250, 100⟩, ⟨1, 0, 0⟩) := by
    norm_num [maybeSnapshot]
  exact ⟨h, c8_cumulative_vs_window_total ⟨0, 0, 3, 40, [10, 30]⟩ (1/4) 60
    ⟨0, 2, 100⟩ 1 ⟨2, 1/1250, 100⟩ ⟨1, 0, 0⟩ h⟩

/-- C8 counterexample: on a trace with 100 bytes in the first window and
50 bytes in the second, the benchmark receiver's printed Total is 100
and then 50 - it decreases across snapshots and is reset by each
snapshot, so the byte total it reports to the display sink is not a
monotone session-lifetime running total. -/
theorem c8_counterexample :
    receiverRun ⟨0, 0, 0⟩ [(1, 100), (2, 50)] =
      Except.ok (⟨2, 0, 0⟩, [⟨1, 1/1250, 100⟩, ⟨1, 1/2500, 50⟩]) ∧ (50 : ℕ) < 100 := by
  refine ⟨?_, by norm_num⟩
  norm_num [receiverRun, receiverStep, maybeSnapshot, record]

/-- Ingesting one frame always increments test-client's frame counter. -/
theorem clientStep_frameCount (s : ClientState) (t : ℚ) (len : ℕ) :
    ((clientStep s t len).1).frameCount = s.frameCount + 1 := by
  simp only [clientStep]
  split <;> rfl

/-- After a run over a trace, test-client's frame counter equals the
initial count plus the number of messages in the trace. -/
theorem clientRun_frameCount (evs : List (ℚ × ℕ)) :
    ∀ s : ClientState, ((clientRun s evs).1).frameCount = s.frameCount + evs.length := by
  induction evs with
  | nil => intro s; rfl
  | cons e rest ih =>
    intro s
    obtain ⟨t, len⟩ := e
    show ((clientRun (clientStep s t len).1 rest).1).frameCount = _
    rw [ih, clientStep_frameCount]
    simp only [List.length_cons]
    omega

/-- Ingesting a frame never changes test-client's session start time. -/
theorem clientStep_startTime (s : ClientState) (t : ℚ) (len : ℕ) :
    ((clientStep s t len).1).startTime = s.startTime := by
  simp only [clientStep]
  split <;> rfl

/-- A whole run never changes test-client's session start time. -/
theorem clientRun_startTime (evs : List (ℚ × ℕ)) :
    ∀ s : ClientState, ((clientRun s evs).1).startTime = s.startTime := by
  induction evs with
  | nil => intro s; rfl
  | cons e rest ih =>
    intro s
    obtain ⟨t, len⟩ := e
    show ((clientRun (clientStep s t len).1 rest).1).startTime = _
    rw [ih, clientStep_startTime]

/-- C9 (amended): for a session whose connection was established and
whose final elapsed time is nonzero (the avg_fps division of the
summary block is unguarded and faults at zero elapsed), the
final-statistics block never faults and the final summary is emitted
iff at least one frame was received and the session did not end through
the generic-exception handler (which returns before the
final-statistics block); in particular a session with zero frames never
produces a summary. -/
theorem c9_summary_iff (t0 endT : ℚ) (evs : List (ℚ × ℕ)) (term : ClientTermination)
    (hne : endT - t0 ≠ 0) :
    ∃ o, clientFinal (clientRun (clientInit t0) evs).1 endT term = Except.ok o ∧
      (o.isSome = true ↔ (term ≠ ClientTermination.genericError ∧ evs ≠ [])) := by
  have hst : ((clientRun (clientInit t0) evs).1).startTime = t0 := by
    rw [clientRun_startTime]
    rfl
  have hfc : ((clientRun (clientInit t0) evs).1).frameCount = evs.length := by
    rw [clientRun_frameCount]
    simp [clientInit]
  have hne' : endT - ((clientRun (clientInit t0) evs).1).startTime ≠ 0 := by
    rw [hst]
    exact hne
  unfold clientFinal
  split_ifs with h1 h2
  · exact ⟨none, rfl, by simp [h1]⟩
  · refine ⟨_, rfl, ?_⟩
    simp only [Option.isSome_some, true_iff]
    refine ⟨h1, ?_⟩
    rw [hfc] at h2
    exact List.length_pos.mp h2
  · refine ⟨none, rfl, ?_⟩
    simp only [Option.isSome_none, Bool.false_eq_true, false_iff, not_and]
    intro hterm hnil
    apply h2
    rw [hfc]
    exact List.length_pos.mpr hnil

/-- Witness for C9 (amended) at a concrete input: one frame, normal
close, elapsed 2 seconds, summary present. -/
theorem c9_summary_iff_witness :
    ((2:ℚ) - 0 ≠ 0) ∧
    ∃ o, clientFinal (clientRun (clientInit 0) [(1, 10)]).1 2 ClientTermination.closed =
      Except.ok o ∧ (o.isSome = true ↔
        (ClientTermination.closed ≠ ClientTermination.genericError ∧
          ([((1:ℚ), (10:ℕ))] : List (ℚ × ℕ)) ≠ [])) := by
  exact ⟨by norm_num, c9_summary_iff 0 2 [(1, 10)] ClientTermination.closed (by norm_num)⟩

/-- C9 counterexample: a session that received one frame but ended
through the generic-exception handler produces no final summary, even
though at least one event was recorded. -/
theorem c9_counterexample :
    ((clientRun (clientInit 0) [(1/2, 10)]).1).frameCount = 1 ∧
    clientFinal (clientRun (clientInit 0) [(1/2, 10)]).1 2 ClientTermination.genericError
      = Except.ok none := by
  constructor
  · norm_num [clientRun, clientStep, clientInit]
  · norm_num [clientFinal, clientRun, clientStep, clientInit]

/-- Dropping exactly the length of a prefix exposes the suffix. -/
theorem drop_of_prefix_length (pre suf : List ℕ) (n : ℕ) (h : pre.length = n) :
    (pre ++ suf).drop n = suf := by
  subst h
  simp

/-- Taking exactly the length of a prefix yields the prefix. -/
theorem take_of_prefix_length (pre suf : List ℕ) (n : ℕ) (h : pre.length = n) :
    (pre ++ suf).take n = pre := by
  subst h
  simp

/-- The BMP row padding is a remainder modulo 4, hence non-negative. -/
theorem bmpRowPadding_nonneg (w : ℤ) : 0 ≤ bmpRowPadding w := by
  unfold bmpRowPadding
  exact Int.emod_nonneg _ (by norm_num)

/-- For positive dimensions the declared BMP file size is positive. -/
theorem bmpFileSize_pos (w h : ℤ) (hw : 0 < w) (hh : 0 < h) : 0 < bmpFileSize w h := by
  have hp := bmpRowPadding_nonneg w
  have h1 : 0 ≤ w * 3 + bmpRowPadding w := by linarith
  have h2 : 0 ≤ (w * 3 + bmpRowPadding w) * h := mul_nonneg h1 hh.le
  unfold bmpFileSize
  linarith

/-- C10 (amended): for every positive width and height small enough for
the struct packing to accept (width below 2^31, height at most 2^31,
declared file size below 2^32), create_bmp_header returns exactly 54
bytes beginning with the BM signature, with pixel-data offset 54 at
bytes 10-13, bits-per-pixel 24 at bytes 28-29, the two's-complement
encoding of the negated height at bytes 22-25, and the declared file
size 54 + (width*3 + rowPadding) * height at bytes 2-5; outside those
ranges struct.pack raises instead. -/
theorem c10_bmp_header_fields (w h : ℤ) (hw : 0 < w) (hw31 : w < 2147483648)
    (hh : 0 < h) (hh31 : h ≤ 2147483648) (hfs : bmpFileSize w h < 4294967296) :
    ∃ l, create_bmp_header w h = Except.ok l ∧ l.length = 54 ∧
      l.take 2 = [66, 77] ∧
      (l.drop 10).take 4 = [54, 0, 0, 0] ∧
      (l.drop 28).take 2 = [24, 0] ∧
      (l.drop 22).take 4 = packLE4 ((-h % 4294967296).toNat) ∧
      (l.drop 2).take 4 = packLE4 (bmpFileSize w h).toNat := by
  have hfs0 : 0 ≤ bmpFileSize w h := (bmpFileSize_pos w h hw hh).le
  have hU : packU32 (bmpFileSize w h) = Except.ok (packLE4 (bmpFileSize w h).toNat) := by
    unfold packU32
    rw [if_pos ⟨hfs0, hfs⟩]
  have hW : packI32 w = Except.ok (packLE4 ((w % 4294967296).toNat)) := by
    unfold packI32
    rw [if_pos ⟨by linarith, hw31⟩]
  have hH : packI32 (-h) = Except.ok (packLE4 ((-h % 4294967296).toNat)) := by
    unfold packI32
    rw [if_pos ⟨by linarith, by linarith⟩]
  have hceq : create_bmp_header w h = Except.ok
      ([66, 77] ++ packLE4 (bmpFileSize w h).toNat ++ [0, 0, 0, 0] ++ packLE4 54 ++
        packLE4 40 ++ packLE4 ((w % 4294967296).toNat) ++ packLE4 ((-h % 4294967296).toNat) ++
        packU16 1 ++ packU16 24 ++ List.replicate 24 0) := by
    simp only [create_bmp_header, hU, hW, hH]
  refine ⟨_, hceq, ?_, ?_, ?_, ?_, ?_, ?_⟩
  · simp [packLE4, packU16]
  · have hsp : ([66, 77] ++ packLE4 (bmpFileSize w h).toNat ++ [0, 0, 0, 0] ++ packLE4 54 ++
        packLE4 40 ++ packLE4 ((w % 4294967296).toNat) ++ packLE4 ((-h % 4294967296).toNat) ++
        packU16 1 ++ packU16 24 ++ List.replicate 24 0 : List ℕ) =
        [66, 77] ++ (packLE4 (bmpFileSize w h).toNat ++ [0, 0, 0, 0] ++ packLE4 54 ++
        packLE4 40 ++ packLE4 ((w % 4294967296).toNat) ++ packLE4 ((-h % 4294967296).toNat) ++
        packU16 1 ++ packU16 24 ++ List.replicate 24 0) := by
      simp [List.append_assoc]
    rw [hsp, take_of_prefix_length _ _ 2 (by simp)]
  · have hsp : ([66, 77] ++ packLE4 (bmpFileSize w h).toNat ++ [0, 0, 0, 0] ++ packLE4 54 ++
        packLE4 40 ++ packLE4 ((w % 4294967296).toNat) ++ packLE4 ((-h % 4294967296).toNat) ++
        packU16 1 ++ packU16 24 ++ List.replicate 24 0 : List ℕ) =
        ([66, 77] ++ packLE4 (bmpFileSize w h).toNat ++ [0, 0, 0, 0]) ++ (packLE4 54 ++
        (packLE4 40 ++ packLE4 ((w % 4294967296).toNat) ++ packLE4 ((-h % 4294967296).toNat) ++
        packU16 1 ++ packU16 24 ++ List.replicate 24 0)) := by
      simp [List.append_assoc]
    rw [hsp, drop_of_prefix_length _ _ 10 (by simp [packLE4]),
      take_of_prefix_length _ _ 4 (by simp [packLE4])]
    simp [packLE4]
  · have hsp : ([66, 77] ++ packLE4 (bmpFileSize w h).toNat ++ [0, 0, 0, 0] ++ packLE4 54 ++
        packLE4 40 ++ packLE4 ((w % 4294967296).toNat) ++ packLE4 ((-h % 4294967296).toNat) ++
        packU16 1 ++ packU16 24 ++ List.replicate 24 0 : List ℕ) =
        ([66, 77] ++ packLE4 (bmpFileSize w h).toNat ++ [0, 0, 0, 0] ++ packLE4 54 ++
        packLE4 40 ++ packLE4 ((w % 4294967296).toNat) ++ packLE4 ((-h % 4294967296).toNat) ++
        packU16 1) ++ (packU16 24 ++ List.replicate 24 0) := by
      simp [List.append_assoc]
    rw [hsp, drop_of_prefix_length _ _ 28 (by simp [packLE4, packU16]),
      take_of_prefix_length _ _ 2 (by simp [packU16])]
    simp [packU16]
  · have hsp : ([66, 77] ++ packLE4 (bmpFileSize w h).toNat ++ [0, 0, 0, 0] ++ packLE4 54 ++
        packLE4 40 ++ packLE4 ((w % 4294967296).toNat) ++ packLE4 ((-h % 4294967296).toNat) ++
        packU16 1 ++ packU16 24 ++ List.replicate 24 0 : List ℕ) =
        ([66, 77] ++ packLE4 (bmpFileSize w h).toNat ++ [0, 0, 0, 0] ++ packLE4 54 ++
        packLE4 40 ++ packLE4 ((w % 4294967296).toNat)) ++
        (packLE4 ((-h % 4294967296).toNat) ++
        (packU16 1 ++ packU16 24 ++ List.replicate 24 0)) := by
      simp [List.append_assoc]
    rw [hsp, drop_of_prefix_length _ _ 22 (by simp [packLE4]),
      take_of_prefix_length _ _ 4 (by simp [packLE4])]
  · have hsp : ([66, 77] ++ packLE4 (bmpFileSize w h).toNat ++ [0, 0, 0, 0] ++ packLE4 54 ++
        packLE4 40 ++ packLE4 ((w % 4294967296).toNat) ++ packLE4 ((-h % 4294967296).toNat) ++
        packU16 1 ++ packU16 24 ++ List.replicate 24 0 : List ℕ) =
        [66, 77] ++ (packLE4 (bmpFileSize w h).toNat ++ ([0, 0, 0, 0] ++ packLE4 54 ++
        packLE4 40 ++ packLE4 ((w % 4294967296).toNat) ++ packLE4 ((-h % 4294967296).toNat) ++
        packU16 1 ++ packU16 24 ++ List.replicate 24 0)) := by
      simp [List.append_assoc]
    rw [hsp, drop_of_prefix_length _ _ 2 (by simp),
      take_of_prefix_length _ _ 4 (by simp [packLE4])]

/-- Witness for C10 (amended) at a concrete input: a 2 by 2 image, whose
rows carry 2 bytes of padding and whose declared file size is 70. -/
theorem c10_bmp_header_fields_witness :
    ∃ l, create_bmp_header 2 2 = Except.ok l ∧ l.length = 54 ∧
      l.take 2 = [66, 77] ∧
      (l.drop 10).take 4 = [54, 0, 0, 0] ∧
      (l.drop 28).take 2 = [24, 0] ∧
      (l.drop 22).take 4 = packLE4 ((-2 % 4294967296 : ℤ).toNat) ∧
      (l.drop 2).take 4 = packLE4 (bmpFileSize 2 2).toNat := by
  exact c10_bmp_header_fields 2 2 (by norm_num) (by norm_num) (by norm_num) (by norm_num)
    (by norm_num [bmpFileSize, bmpRowPadding])

/-- C10 counterexample: at width = height = 65536 the declared file size
54 + 196608 * 65536 exceeds 2^32 - 1, so struct.pack raises and
create_bmp_header faults instead of returning a 54-byte header, refuting
the claim for arbitrary positive dimensions. -/
theorem c10_counterexample : create_bmp_header 65536 65536 = Except.error () := by
  norm_num [create_bmp_header, packU32, bmpFileSize, bmpRowPadding]

end ClaimTheorems2
